import Mathlib

/-!
# City Bus Manager — verification of the Day Simulation & Assignment Engine

A shallow embedding of the two engine variants of the repository:

* `Game` models `game.py` (duration-based stops, dynamic fuel price,
  running-board mode);
* `Code` models `code.py` (distance-based stops, fixed fuel price).

Python floats are embedded as `ℚ` (all the constants of the source are
exact decimals), Python ints as `Int`.  `random.randint(lo, hi)` is
embedded as an oracle value clamped into `[lo, hi]`, so that the set of
possible results coincides with the set of results of the source;
`random.random()` rolls are oracle rationals compared against the
source's literal thresholds.  File persistence is a collaborator: the
day simulation of the running-board variant receives the list of loaded
boards as an argument; `save`/`load` of the company snapshot are
modelled by a JSON-like value type (`JValue`).
-/

/-- Python `int(x)` for a rational: truncation toward zero (`math.trunc`).
For `0 ≤ x` it agrees with `⌊x⌋`. -/
def pyInt (q : ℚ) : Int := if 0 ≤ q then ⌊q⌋ else ⌈q⌉

/-- Python `random.randint lo hi`: the draw oracle `d` clamped into
`[lo, hi]`; every result the source can return corresponds to some
oracle value, and an in-range oracle is returned unchanged. -/
def randint (lo hi d : Int) : Int := max lo (min hi d)

/-- Replace the first element satisfying `p` (the Python loops mutate the
object returned by `next(...)`, which is the first match in the list). -/
def updateFirst {α : Type} (p : α → Bool) (f : α → α) : List α → List α
  | [] => []
  | x :: xs => if p x then f x :: xs else x :: updateFirst p f xs

namespace Game

/-- `game.py` `Stop`: travel time in minutes from the previous stop. -/
structure Stop where
  name : String
  minutes_from_prev : Int
deriving DecidableEq, Repr

/-- `game.py` `Route`. -/
structure Route where
  name : String
  stops : List Stop
  base_schedule_minutes : Int
  current_schedule_minutes : Int
  assigned_bus_id : Option Int
deriving DecidableEq, Repr

/-- `game.py` `Bus`. -/
structure Bus where
  bus_id : Int
  model : String
  capacity : Int
  fuel_capacity : ℚ
  fuel_level : ℚ
  fuel_efficiency : ℚ
  assigned_route : Option String
  health : Int
  purchase_price : ℚ
  fleet_number : Option String
  dlc_source : Option String
  livery : String
deriving DecidableEq, Repr

/-- `game.py` `Bus.consume_fuel(minutes, speed=30)`: returns the litres
used and the bus with its fuel level floored at 0. -/
def Bus.consume_fuel (b : Bus) (minutes : ℚ) (speed : ℚ) : ℚ × Bus :=
  let distance := minutes / 60 * speed
  let speed_factor := speed / 50
  let used := distance * b.fuel_efficiency * speed_factor
  (used, { b with fuel_level := max (b.fuel_level - used) 0 })

/-- `game.py` `ManagerState`. -/
structure ManagerState where
  company_name : String
  routes : List Route
  fleet : List Bus
  money : ℚ
  reputation : ℚ
  day : Int
  next_bus_id : Int
  use_running_boards : Bool
  fuel_price : ℚ
deriving DecidableEq, Repr

/-- `ManagerState(company_name=...)` with the dataclass defaults of
`game.py`: £2,500,000, reputation 50.0, day 1, fuel £1.60/L. -/
def ManagerState.new (company_name : String) : ManagerState :=
  { company_name := company_name
    routes := []
    fleet := []
    money := 2500000
    reputation := 50
    day := 1
    next_bus_id := 1
    use_running_boards := false
    fuel_price := 8/5 }

/-- `game.py` `update_fuel_price`: add the day's fluctuation (drawn
uniformly from [-0.05, 0.05]) and clamp into [1.25, 2.00]. -/
def update_fuel_price (s : ManagerState) (fluctuation : ℚ) : ManagerState :=
  let new_price := s.fuel_price + fluctuation
  { s with fuel_price := max (5/4) (min 2 new_price) }

/-- `n` consecutive days of fuel-market drift: `update_fuel_price`
applied once per day with that day's fluctuation. -/
def advanceCalls (s : ManagerState) (fl : Nat → ℚ) : Nat → ManagerState
  | 0 => s
  | n + 1 => update_fuel_price (advanceCalls s fl n) (fl n)

/-- `game.py` `change_route_schedule`, after route resolution: `none`
models the `Schedule too short! Aborting.` early return (the route is
left untouched), `some` the accepted mutation.  Python `//` on ints is
floor division, `Int.fdiv`. -/
def change_route_schedule (r : Route) (new_time : Int) : Option Route :=
  if new_time < Int.fdiv r.base_schedule_minutes 2 then none
  else some { r with current_schedule_minutes := new_time }

/-- `game.py` `assign_bus_to_route`, after input parsing: `bus_id` is the
selected bus, `route_idx` the selected route index.  If either fails to
resolve the function reports and returns with no mutation.  Otherwise it
clears the bus from every route holding it, installs it on the target
(silently displacing any previous occupant), and sets the bus's
`assigned_route` back-reference. -/
def assign_bus_to_route (s : ManagerState) (bus_id : Int) (route_idx : Nat) :
    ManagerState :=
  match s.fleet.find? (fun b => b.bus_id == bus_id) with
  | none => s
  | some _ =>
    let cleared := s.routes.map (fun r =>
      if r.assigned_bus_id = some bus_id then { r with assigned_bus_id := none }
      else r)
    match cleared[route_idx]? with
    | none => s
    | some route =>
      { s with
        routes := cleared.set route_idx { route with assigned_bus_id := some bus_id }
        fleet := updateFirst (fun b => b.bus_id == bus_id)
          (fun b => { b with assigned_route := some route.name }) s.fleet }

/-- Route workload: `sum(stop.minutes_from_prev for stop in route.stops[1:])`. -/
def Route.total_time (r : Route) : Int :=
  (r.stops.drop 1).foldl (fun acc s => acc + s.minutes_from_prev) 0

/-- The random draws consumed by one served route of the static engine:
the `randint` demand oracle, the incident `random.random()` roll and the
tight-schedule `random.random()` roll (the latter is only consulted when
the current schedule undercuts the base; the incident label
`random.choice` only feeds a print and is not modelled). -/
structure RouteRand where
  demand : Int
  eventRoll : ℚ
  tightRoll : ℚ

/-- Running totals of the static day loop of `game.py`.  `fleet` and
`money` mirror the in-place mutations (fuel burn, £200 incident fines);
`totalFuelUsed` is a ghost sum of the per-route `fuel_used` values
(printed by the source), recorded to state the pre-advance pricing
theorem. -/
structure DayAcc where
  fleet : List Bus
  money : ℚ
  totalEarnings : ℚ
  totalFuelCost : ℚ
  totalFuelUsed : ℚ
  repChange : ℚ

/-- One iteration of the static day loop of
`game.py` `run_day_simulation_static`: either the route has no resolvable
bus (reputation −5, nothing else), or demand, fare income at £2.50 a
ticket, fuel burn, the 0.20 incident check (−3 reputation, −£200) and
the 0.3 tight-schedule check are resolved in source order. -/
def simRouteStatic (fuel_price : ℚ) (acc : DayAcc) (route : Route)
    (rnd : RouteRand) : DayAcc :=
  match acc.fleet.find? (fun b => some b.bus_id == route.assigned_bus_id) with
  | none => { acc with repChange := acc.repChange - 5 }
  | some bus =>
    let total_time := route.total_time
    let ticket_price : ℚ := 5/2
    let avg_demand := pyInt ((total_time : ℚ) * (3/2))
    let passengers := min bus.capacity
      (randint (max 0 (avg_demand - 5)) (avg_demand + 5) rnd.demand)
    let earnings := (passengers : ℚ) * ticket_price
    let fb := bus.consume_fuel (total_time : ℚ) 30
    let fuel_cost := fb.1 * fuel_price
    let money1 := if rnd.eventRoll < 1/5 then acc.money - 200 else acc.money
    let rep1 := if rnd.eventRoll < 1/5 then acc.repChange - 3 else acc.repChange + 1
    let rep2 :=
      if route.current_schedule_minutes < route.base_schedule_minutes then
        if rnd.tightRoll < 3/10 then rep1 - 2 else rep1 + 1
      else rep1 + 1
    { fleet := updateFirst (fun b => some b.bus_id == route.assigned_bus_id)
        (fun _ => fb.2) acc.fleet
      money := money1
      totalEarnings := acc.totalEarnings + earnings
      totalFuelCost := acc.totalFuelCost + fuel_cost
      totalFuelUsed := acc.totalFuelUsed + fb.1
      repChange := rep2 }

/-- The static day loop over the route list, fed by a stream of random
draws (one record per route position). -/
def simRoutesStatic (fuel_price : ℚ) (acc : DayAcc) :
    List Route → (Nat → RouteRand) → DayAcc
  | [], _ => acc
  | r :: rest, rnd =>
    simRoutesStatic fuel_price (simRouteStatic fuel_price acc r (rnd 0)) rest
      (fun n => rnd (n + 1))

/-- `game.py` `run_day_simulation_static`: empty route list or empty
fleet aborts with no mutation; otherwise every route is resolved, the
net profit is applied, the reputation delta is clamped into [0,100], the
fuel market advances by `fluct` and the day counter increments. -/
def run_day_simulation_static (s : ManagerState) (rnd : Nat → RouteRand)
    (fluct : ℚ) : ManagerState :=
  if s.routes.isEmpty || s.fleet.isEmpty then s
  else
    let acc := simRoutesStatic s.fuel_price
      { fleet := s.fleet, money := s.money, totalEarnings := 0,
        totalFuelCost := 0, totalFuelUsed := 0, repChange := 0 }
      s.routes rnd
    let net_profit := acc.totalEarnings - acc.totalFuelCost
    let s1 := { s with
      fleet := acc.fleet
      money := acc.money + net_profit
      reputation := max 0 (min 100 (s.reputation + acc.repChange)) }
    let s2 := update_fuel_price s1 fluct
    { s2 with day := s.day + 1 }

/-- `running_boards.py` `Trip`. -/
structure Trip where
  route_name : String
  destination : String
  departure_time : String
deriving DecidableEq, Repr

/-- `running_boards.py` `RunningBoard`. -/
structure RunningBoard where
  name : String
  trips : List Trip
  assigned_bus_id : Option Int
deriving DecidableEq, Repr

/-- The random draws consumed by one completed trip of the running-board
engine: the `randint` demand oracle and the 0.10 incident roll (the
incident label `random.choice` is drawn into a variable the source never
reads). -/
structure TripRand where
  demand : Int
  eventRoll : ℚ

/-- Per-board running totals of `run_day_simulation_running_boards`:
the board's bus (mutated trip by trip), the board's income and fuel
bill, the day's reputation delta, the completed-trip counter, and the
remaining oracle stream (skipped and cancelled trips draw nothing). -/
structure TripAcc where
  bus : Bus
  boardEarnings : ℚ
  boardFuel : ℚ
  /-- Ghost sum of the per-trip `fuel_used` values, recorded to state
  the pre-advance pricing theorem. -/
  boardFuelUsed : ℚ
  repChange : ℚ
  tripsCompleted : Nat
  rnd : Nat → TripRand

/-- One trip of a running board (`game.py`
`run_day_simulation_running_boards` inner loop): a dangling route name
costs −2 reputation and is skipped; a bus whose fuel level is below the
time-based estimate cancels the trip at −5 reputation with no fuel burnt
and nothing recorded; otherwise the trip completes exactly as a static
route (fare £2.50, `consume_fuel` at speed 30) with the smaller 0.10
incident check (−1 / +0.5). -/
def simTrip (fuel_price : ℚ) (routes : List Route) (acc : TripAcc)
    (trip : Trip) : TripAcc :=
  match routes.find? (fun r => r.name == trip.route_name) with
  | none => { acc with repChange := acc.repChange - 2 }
  | some route =>
    let total_time := route.total_time
    let fuel_needed := (total_time : ℚ) / 60 * 30 * acc.bus.fuel_efficiency
    if acc.bus.fuel_level < fuel_needed then
      { acc with repChange := acc.repChange - 5 }
    else
      let tr := acc.rnd 0
      let ticket_price : ℚ := 5/2
      let avg_demand := pyInt ((total_time : ℚ) * (3/2))
      let passengers := min acc.bus.capacity
        (randint (max 0 (avg_demand - 5)) (avg_demand + 5) tr.demand)
      let earnings := (passengers : ℚ) * ticket_price
      let fb := acc.bus.consume_fuel (total_time : ℚ) 30
      let fuel_cost := fb.1 * fuel_price
      let rep1 := if tr.eventRoll < 1/10 then acc.repChange - 1
        else acc.repChange + 1/2
      { bus := fb.2
        boardEarnings := acc.boardEarnings + earnings
        boardFuel := acc.boardFuel + fuel_cost
        boardFuelUsed := acc.boardFuelUsed + fb.1
        repChange := rep1
        tripsCompleted := acc.tripsCompleted + 1
        rnd := fun n => acc.rnd (n + 1) }

/-- Day-level running totals of the running-board engine. -/
structure DynAcc where
  fleet : List Bus
  totalEarnings : ℚ
  totalFuelCost : ℚ
  /-- Ghost sum of the per-trip `fuel_used` values. -/
  totalFuelUsed : ℚ
  repChange : ℚ
  rnd : Nat → TripRand

/-- One running board: an unresolvable bus assignment skips the board
with no penalty; otherwise the trips run in order against the board's
bus, whose final fuel state is written back to the fleet. -/
def simBoard (fuel_price : ℚ) (routes : List Route) (acc : DynAcc)
    (board : RunningBoard) : DynAcc :=
  match acc.fleet.find? (fun b => some b.bus_id == board.assigned_bus_id) with
  | none => acc
  | some bus =>
    let t := board.trips.foldl (simTrip fuel_price routes)
      { bus := bus, boardEarnings := 0, boardFuel := 0, boardFuelUsed := 0,
        repChange := acc.repChange, tripsCompleted := 0, rnd := acc.rnd }
    { fleet := updateFirst (fun b => some b.bus_id == board.assigned_bus_id)
        (fun _ => t.bus) acc.fleet
      totalEarnings := acc.totalEarnings + t.boardEarnings
      totalFuelCost := acc.totalFuelCost + t.boardFuel
      totalFuelUsed := acc.totalFuelUsed + t.boardFuelUsed
      repChange := t.repChange
      rnd := t.rnd }

/-- `if board and board.assigned_bus_id:` — Python truthiness: the board
participates when its bus reference is a non-`None`, non-zero id. -/
def RunningBoard.hasBus (b : RunningBoard) : Bool :=
  match b.assigned_bus_id with
  | some i => i != 0
  | none => false

/-- `game.py` `run_day_simulation_running_boards`.  The loaded boards
are a collaborator input (`list_running_boards` / `load_running_board`
read files); boards without a truthy bus reference are filtered out up
front, and an empty eligible set aborts with no mutation.  Settlement
mirrors the static engine. -/
def run_day_simulation_running_boards (s : ManagerState)
    (allBoards : List RunningBoard) (rnd : Nat → TripRand) (fluct : ℚ) :
    ManagerState :=
  let boards := allBoards.filter RunningBoard.hasBus
  if boards.isEmpty then s
  else
    let acc := boards.foldl (simBoard s.fuel_price s.routes)
      { fleet := s.fleet, totalEarnings := 0, totalFuelCost := 0,
        totalFuelUsed := 0, repChange := 0, rnd := rnd }
    let net_profit := acc.totalEarnings - acc.totalFuelCost
    let s1 := { s with
      fleet := acc.fleet
      money := s.money + net_profit
      reputation := max 0 (min 100 (s.reputation + acc.repChange)) }
    let s2 := update_fuel_price s1 fluct
    { s2 with day := s.day + 1 }

end Game

/-- The JSON values `json.dump`/`json.load` exchange: Python ints and
floats are distinct JSON-side species, objects keep their key order. -/
inductive JValue where
  | null
  | bool (b : Bool)
  | int (n : Int)
  | num (q : ℚ)
  | str (s : String)
  | arr (xs : List JValue)
  | obj (fields : List (String × JValue))

/-- `data[k]` / `k in data`: the first binding of `k`. -/
def jlookup (fs : List (String × JValue)) (k : String) : Option JValue :=
  (fs.find? (fun p => p.1 == k)).map (fun p => p.2)

/-- `data.get(k, d)`: the binding of `k`, or the default when absent. -/
def jget (fs : List (String × JValue)) (k : String) (d : JValue) : JValue :=
  (jlookup fs k).getD d

/-- A JSON number read back as a Python float (int or float accepted). -/
def jnumOf : JValue → Option ℚ
  | .num q => some q
  | .int n => some (n : ℚ)
  | _ => none

/-- An optional-int field (`None` serialises as JSON `null`). -/
def joptInt : JValue → Option (Option Int)
  | .null => some none
  | .int n => some (some n)
  | _ => none

/-- An optional-string field (`None` serialises as JSON `null`). -/
def joptStr : JValue → Option (Option String)
  | .null => some none
  | .str s => some (some s)
  | _ => none

/-- Serialise an `Optional[int]` dataclass field. -/
def optIntJ : Option Int → JValue
  | none => .null
  | some n => .int n

/-- Serialise an `Optional[str]` dataclass field. -/
def optStrJ : Option String → JValue
  | none => .null
  | some s => .str s

/-- Decode a JSON array element-wise (the Python list comprehensions
`[X.from_dict(v) for v in data[...]]`); any malformed element fails the
whole load, as the comprehension would raise. -/
def decodeList {α : Type} (f : JValue → Option α) : List JValue → Option (List α)
  | [] => some []
  | x :: xs =>
    match f x, decodeList f xs with
    | some a, some rest => some (a :: rest)
    | _, _ => none

namespace Game

/-- `game.py` `Stop.to_dict` (`asdict`). -/
def Stop.to_dict (s : Stop) : JValue :=
  .obj [("name", .str s.name), ("minutes_from_prev", .int s.minutes_from_prev)]

/-- `game.py` `Stop.from_dict`: the new minutes format when the key is
present, otherwise the legacy kilometre field converted at 30 km/h. -/
def Stop.from_dict : JValue → Option Stop
  | .obj fs =>
    match jlookup fs "minutes_from_prev" with
    | some v =>
      match jlookup fs "name", v with
      | some (.str n), .int m => some { name := n, minutes_from_prev := m }
      | _, _ => none
    | none =>
      match jlookup fs "name", jnumOf (jget fs "distance_from_prev_km" (.int 0)) with
      | some (.str n), some km =>
        some { name := n, minutes_from_prev := pyInt (km * 2) }
      | _, _ => none
  | _ => none

/-- `game.py` `Route.to_dict`. -/
def Route.to_dict (r : Route) : JValue :=
  .obj [("name", .str r.name),
        ("stops", .arr (r.stops.map Stop.to_dict)),
        ("base_schedule_minutes", .int r.base_schedule_minutes),
        ("current_schedule_minutes", .int r.current_schedule_minutes),
        ("assigned_bus_id", optIntJ r.assigned_bus_id)]

/-- `game.py` `Route.from_dict`. -/
def Route.from_dict : JValue → Option Route
  | .obj fs =>
    match jlookup fs "stops" with
    | some (.arr sj) =>
      match decodeList Stop.from_dict sj, jlookup fs "name",
          jlookup fs "base_schedule_minutes",
          jlookup fs "current_schedule_minutes",
          joptInt (jget fs "assigned_bus_id" .null) with
      | some stops, some (.str n), some (.int b), some (.int c), some a =>
        some { name := n, stops := stops, base_schedule_minutes := b,
               current_schedule_minutes := c, assigned_bus_id := a }
      | _, _, _, _, _ => none
    | _ => none
  | _ => none

/-- `game.py` `Bus.to_dict` (`asdict`: every field, declaration order). -/
def Bus.to_dict (b : Bus) : JValue :=
  .obj [("bus_id", .int b.bus_id),
        ("model", .str b.model),
        ("capacity", .int b.capacity),
        ("fuel_capacity", .num b.fuel_capacity),
        ("fuel_level", .num b.fuel_level),
        ("fuel_efficiency", .num b.fuel_efficiency),
        ("assigned_route", optStrJ b.assigned_route),
        ("health", .int b.health),
        ("purchase_price", .num b.purchase_price),
        ("fleet_number", optStrJ b.fleet_number),
        ("dlc_source", optStrJ b.dlc_source),
        ("livery", .str b.livery)]

/-- `game.py` `Bus.from_dict`: required identity fields, `.get` defaults
for health (100), purchase price (0.0) and livery ("Standard"). -/
def Bus.from_dict : JValue → Option Bus
  | .obj fs =>
    match jlookup fs "bus_id", jlookup fs "model", jlookup fs "capacity",
        jnumOf (jget fs "fuel_capacity" .null),
        jnumOf (jget fs "fuel_level" .null),
        jnumOf (jget fs "fuel_efficiency" .null) with
    | some (.int i), some (.str m), some (.int cap), some fc, some fl, some fe =>
      match joptStr (jget fs "assigned_route" .null),
          jget fs "health" (.int 100),
          jnumOf (jget fs "purchase_price" (.num 0)),
          joptStr (jget fs "fleet_number" .null),
          joptStr (jget fs "dlc_source" .null),
          jget fs "livery" (.str "Standard") with
      | some ar, .int h, some pp, some fn, some dlc, .str liv =>
        some { bus_id := i, model := m, capacity := cap, fuel_capacity := fc,
               fuel_level := fl, fuel_efficiency := fe, assigned_route := ar,
               health := h, purchase_price := pp, fleet_number := fn,
               dlc_source := dlc, livery := liv }
      | _, _, _, _, _, _ => none
    | _, _, _, _, _, _ => none
  | _ => none

/-- `game.py` `ManagerState.to_dict`. -/
def ManagerState.to_dict (s : ManagerState) : JValue :=
  .obj [("company_name", .str s.company_name),
        ("routes", .arr (s.routes.map Route.to_dict)),
        ("fleet", .arr (s.fleet.map Bus.to_dict)),
        ("money", .num s.money),
        ("reputation", .num s.reputation),
        ("day", .int s.day),
        ("next_bus_id", .int s.next_bus_id),
        ("use_running_boards", .bool s.use_running_boards),
        ("fuel_price", .num s.fuel_price)]

/-- `game.py` `ManagerState.from_dict`: required core fields, `.get`
defaults for `next_bus_id` (1), `use_running_boards` (False) and
`fuel_price` (1.60). -/
def ManagerState.from_dict : JValue → Option ManagerState
  | .obj fs =>
    match jlookup fs "routes", jlookup fs "fleet" with
    | some (.arr rj), some (.arr fj) =>
      match decodeList Route.from_dict rj, decodeList Bus.from_dict fj,
          jlookup fs "company_name",
          jnumOf (jget fs "money" .null),
          jnumOf (jget fs "reputation" .null),
          jlookup fs "day",
          jget fs "next_bus_id" (.int 1),
          jget fs "use_running_boards" (.bool false),
          jnumOf (jget fs "fuel_price" (.num (8/5))) with
      | some routes, some fleet, some (.str cn), some mo, some rep,
          some (.int d), .int nb, .bool urb, some fp =>
        some { company_name := cn, routes := routes, fleet := fleet,
               money := mo, reputation := rep, day := d, next_bus_id := nb,
               use_running_boards := urb, fuel_price := fp }
      | _, _, _, _, _, _, _, _, _ => none
    | _, _ => none
  | _ => none

end Game

namespace Code

/-- `code.py` `Stop`: travel distance in kilometres from the previous
stop. -/
structure Stop where
  name : String
  distance_from_prev_km : ℚ
deriving DecidableEq, Repr

/-- `code.py` `Route`. -/
structure Route where
  name : String
  stops : List Stop
  base_schedule_minutes : Int
  current_schedule_minutes : Int
  assigned_bus_id : Option Int
deriving DecidableEq, Repr

/-- `code.py` `Bus` (no livery / DLC fields). -/
structure Bus where
  bus_id : Int
  model : String
  capacity : Int
  fuel_capacity : ℚ
  fuel_level : ℚ
  fuel_efficiency : ℚ
  assigned_route : Option String
  health : Int
  purchase_price : ℚ
  fleet_number : Option String
deriving DecidableEq, Repr

/-- `code.py` `Bus.consume_fuel(distance, speed=50)`. -/
def Bus.consume_fuel (b : Bus) (distance : ℚ) (speed : ℚ) : ℚ × Bus :=
  let speed_factor := speed / 50
  let used := distance * b.fuel_efficiency * speed_factor
  (used, { b with fuel_level := max (b.fuel_level - used) 0 })

/-- `code.py` `ManagerState` (no mode flag, no dynamic fuel price). -/
structure ManagerState where
  company_name : String
  routes : List Route
  fleet : List Bus
  money : ℚ
  reputation : ℚ
  day : Int
  next_bus_id : Int
deriving DecidableEq, Repr

/-- `ManagerState(company_name=...)` with the dataclass defaults of
`code.py`. -/
def ManagerState.new (company_name : String) : ManagerState :=
  { company_name := company_name
    routes := []
    fleet := []
    money := 2500000
    reputation := 50
    day := 1
    next_bus_id := 1 }

/-- Route workload: `sum(stop.distance_from_prev_km for stop in
route.stops[1:])`. -/
def Route.total_distance (r : Route) : ℚ :=
  (r.stops.drop 1).foldl (fun acc s => acc + s.distance_from_prev_km) 0

/-- Running totals of the day loop of `code.py` (same shape as the
static loop of `game.py`). -/
structure DayAcc where
  fleet : List Bus
  money : ℚ
  totalEarnings : ℚ
  totalFuelCost : ℚ
  repChange : ℚ

/-- One iteration of the day loop of `code.py` `run_day_simulation`:
distance-based demand `int(total_distance * 10)`, fare £2.50, fuel burnt
at the default speed 50 and billed at the fixed £1.60/L, the 0.15
incident check (−3 reputation, −£20) and the 0.3 tight-schedule
check. -/
def simRoute (acc : DayAcc) (route : Route) (rnd : Game.RouteRand) : DayAcc :=
  match acc.fleet.find? (fun b => some b.bus_id == route.assigned_bus_id) with
  | none => { acc with repChange := acc.repChange - 5 }
  | some bus =>
    let total_distance := route.total_distance
    let ticket_price : ℚ := 5/2
    let avg_demand := pyInt (total_distance * 10)
    let passengers := min bus.capacity
      (randint (max 0 (avg_demand - 5)) (avg_demand + 5) rnd.demand)
    let earnings := (passengers : ℚ) * ticket_price
    let fb := bus.consume_fuel total_distance 50
    let fuel_cost := fb.1 * (8/5)
    let money1 := if rnd.eventRoll < 3/20 then acc.money - 20 else acc.money
    let rep1 := if rnd.eventRoll < 3/20 then acc.repChange - 3 else acc.repChange + 1
    let rep2 :=
      if route.current_schedule_minutes < route.base_schedule_minutes then
        if rnd.tightRoll < 3/10 then rep1 - 2 else rep1 + 1
      else rep1 + 1
    { fleet := updateFirst (fun b => some b.bus_id == route.assigned_bus_id)
        (fun _ => fb.2) acc.fleet
      money := money1
      totalEarnings := acc.totalEarnings + earnings
      totalFuelCost := acc.totalFuelCost + fuel_cost
      repChange := rep2 }

/-- The day loop over the route list. -/
def simRoutes (acc : DayAcc) : List Route → (Nat → Game.RouteRand) → DayAcc
  | [], _ => acc
  | r :: rest, rnd =>
    simRoutes (simRoute acc r (rnd 0)) rest (fun n => rnd (n + 1))

/-- `code.py` `run_day_simulation`: empty route list or empty fleet
aborts with no mutation; otherwise settlement applies the net profit,
clamps reputation into [0,100] and increments the day counter (no fuel
market in this variant). -/
def run_day_simulation (s : ManagerState) (rnd : Nat → Game.RouteRand) :
    ManagerState :=
  if s.routes.isEmpty || s.fleet.isEmpty then s
  else
    let acc := simRoutes
      { fleet := s.fleet, money := s.money, totalEarnings := 0,
        totalFuelCost := 0, repChange := 0 } s.routes rnd
    let net_profit := acc.totalEarnings - acc.totalFuelCost
    { s with
      fleet := acc.fleet
      money := acc.money + net_profit
      reputation := max 0 (min 100 (s.reputation + acc.repChange))
      day := s.day + 1 }

end Code

/-! ## Concrete fixtures

Small hand-built company states used to instantiate the theorems below
on concrete inputs.  The bus is the base-game ADL Enviro200 of the shop
list; the routes follow the spec's scenario of a two-stop route with
workload 10. -/

/-- A fleet bus: the `game.py` shop's ADL Enviro200 (capacity 40, tank
160 L, 0.26 L/km). -/
def demoBusG : Game.Bus :=
  { bus_id := 1, model := "ADL Enviro200 [Base Game]", capacity := 40,
    fuel_capacity := 160, fuel_level := 160, fuel_efficiency := 26/100,
    assigned_route := some "Route 1", health := 100, purchase_price := 90000,
    fleet_number := some "1", dlc_source := none, livery := "Standard" }

/-- A second fleet bus with a distinct id. -/
def demoBusG2 : Game.Bus :=
  { demoBusG with
    bus_id := 2
    fleet_number := some "2"
    assigned_route := none }

/-- A two-stop route of 10 minutes workload, served by bus 1. -/
def demoRouteG : Game.Route :=
  { name := "Route 1",
    stops := [{ name := "Depot", minutes_from_prev := 0 },
              { name := "High Street", minutes_from_prev := 10 }],
    base_schedule_minutes := 12, current_schedule_minutes := 12,
    assigned_bus_id := some 1 }

/-- A second route, currently served by bus 2. -/
def demoRouteG2 : Game.Route :=
  { name := "Route 2",
    stops := [{ name := "Depot", minutes_from_prev := 0 },
              { name := "Station", minutes_from_prev := 20 }],
    base_schedule_minutes := 24, current_schedule_minutes := 24,
    assigned_bus_id := some 2 }

/-- A two-route, two-bus company: bus 1 on route 1, bus 2 on route 2. -/
def demoStateTwo : Game.ManagerState :=
  { company_name := "Acme", routes := [demoRouteG, demoRouteG2],
    fleet := [demoBusG, demoBusG2], money := 2500000, reputation := 50,
    day := 1, next_bus_id := 3, use_running_boards := false,
    fuel_price := 8/5 }

/-- Day-loop accumulator seeded as `run_day_simulation_static` does. -/
def demoAccG : Game.DayAcc :=
  { fleet := [demoBusG], money := 2500000, totalEarnings := 0,
    totalFuelCost := 0, totalFuelUsed := 0, repChange := 0 }

/-- A one-route, one-bus `game.py` company. -/
def demoStateG : Game.ManagerState :=
  { company_name := "Acme", routes := [demoRouteG], fleet := [demoBusG],
    money := 2500000, reputation := 50, day := 1, next_bus_id := 2,
    use_running_boards := false, fuel_price := 8/5 }

/-- A trip over the demo route. -/
def demoTripG : Game.Trip :=
  { route_name := "Route 1", destination := "High Street",
    departure_time := "08:00" }

/-- A trip whose route name resolves to no route. -/
def demoTripGhost : Game.Trip :=
  { route_name := "Ghost", destination := "Nowhere",
    departure_time := "09:00" }

/-- Trip accumulator for a full-tank bus. -/
def demoTripAccG : Game.TripAcc :=
  { bus := demoBusG, boardEarnings := 0, boardFuel := 0, boardFuelUsed := 0,
    repChange := 0, tripsCompleted := 0, rnd := fun _ => ⟨7, 1⟩ }

/-- Trip accumulator for a nearly dry bus (0.1 L left; the demo trip
needs 1.3 L). -/
def demoTripAccLow : Game.TripAcc :=
  { demoTripAccG with bus := { demoBusG with fuel_level := 1/10 } }

/-- The spec's scenario bus for the distance-based variant: capacity 50. -/
def demoBusC : Code.Bus :=
  { bus_id := 1, model := "Demo Coach", capacity := 50,
    fuel_capacity := 160, fuel_level := 160, fuel_efficiency := 26/100,
    assigned_route := some "Route 1", health := 100, purchase_price := 90000,
    fleet_number := some "1" }

/-- The spec's scenario route: workload 10 km, served by bus 1. -/
def demoRouteC : Code.Route :=
  { name := "Route 1",
    stops := [{ name := "Depot", distance_from_prev_km := 0 },
              { name := "High Street", distance_from_prev_km := 10 }],
    base_schedule_minutes := 20, current_schedule_minutes := 20,
    assigned_bus_id := some 1 }

/-- Day-loop accumulator seeded as `code.py` `run_day_simulation` does. -/
def demoAccC : Code.DayAcc :=
  { fleet := [demoBusC], money := 2500000, totalEarnings := 0,
    totalFuelCost := 0, repChange := 0 }

/-! ## Shared lemmas -/

/-- The settlement clamp is bounded below by 0. -/
theorem clamp_nonneg (x : ℚ) : 0 ≤ max 0 (min 100 x) := le_max_left 0 _

/-- The settlement clamp is bounded above by 100. -/
theorem clamp_le_hundred (x : ℚ) : max 0 (min 100 x) ≤ 100 :=
  max_le (by norm_num) (min_le_left _ _)

/-- `updateFirst` leaves every position holding a non-matching element
unchanged. -/
theorem updateFirst_getElem?_of_not {α : Type} (p : α → Bool) (f : α → α) :
    ∀ (l : List α) (j : Nat) (y : α), l[j]? = some y → p y = false →
      (updateFirst p f l)[j]? = some y := by
  intro l
  induction l with
  | nil => intro j y h _; simp at h
  | cons x xs ih =>
    intro j y h hy
    cases j with
    | zero =>
      simp only [List.getElem?_cons_zero, Option.some.injEq] at h
      subst h
      simp [updateFirst, hy]
    | succ j =>
      simp only [List.getElem?_cons_succ] at h
      unfold updateFirst
      by_cases hx : p x
      · simp [hx, h]
      · simp [hx, ih j y h hy]

/-! ## C1 — new company defaults and the empty-route day -/

/-- C1 (counterexample): on a freshly created company, whose route list
is empty, running the day simulation leaves the day counter at 1 — it
does not become 2 as the claim states (the simulation aborts up front
when there are no routes). -/
theorem c1_counterexample :
    (Game.run_day_simulation_static (Game.ManagerState.new "Acme")
        (fun _ => ⟨0, 1, 1⟩) 0).day = 1 ∧
    (Game.run_day_simulation_static (Game.ManagerState.new "Acme")
        (fun _ => ⟨0, 1, 1⟩) 0).day ≠ 2 := by
  constructor <;> decide

/-- C1 (amended): a newly created company has money 2,500,000,
reputation 50.0 and day counter 1; running one day simulation on a state
whose route list is empty is a no-op in both variants — money and
reputation are unchanged and the day counter stays at its prior value
(the simulation is not attempted). -/
theorem c1_new_company_empty_day_noop :
    (∀ n : String, (Game.ManagerState.new n).money = 2500000 ∧
      (Game.ManagerState.new n).reputation = 50 ∧
      (Game.ManagerState.new n).day = 1) ∧
    (∀ (s : Game.ManagerState) (rnd : Nat → Game.RouteRand) (fluct : ℚ),
      s.routes = [] → Game.run_day_simulation_static s rnd fluct = s) ∧
    (∀ (cs : Code.ManagerState) (crnd : Nat → Game.RouteRand),
      cs.routes = [] → Code.run_day_simulation cs crnd = cs) := by
  refine ⟨fun n => ⟨rfl, rfl, rfl⟩, ?_, ?_⟩
  · intro s rnd fluct h
    simp [Game.run_day_simulation_static, h]
  · intro cs crnd h
    simp [Code.run_day_simulation, h]

/-- C1 (witness): the no-op halves of the theorem applied to the fresh
company of each variant. -/
theorem c1_witness :
    Game.run_day_simulation_static (Game.ManagerState.new "Acme")
        (fun _ => ⟨0, 1, 1⟩) 0 = Game.ManagerState.new "Acme" ∧
    Code.run_day_simulation (Code.ManagerState.new "Acme")
        (fun _ => ⟨0, 1, 1⟩) = Code.ManagerState.new "Acme" :=
  ⟨c1_new_company_empty_day_noop.2.1 _ _ _ rfl,
   c1_new_company_empty_day_noop.2.2 _ _ rfl⟩

/-! ## C3 — reputation stays in [0, 100] -/

/-- C3: from any starting state with reputation in [0,100] and any
sequence of random draws, the reputation after a day simulation lies in
[0,100] — for the static engine of `game.py`, the running-board engine
of `game.py`, and the engine of `code.py`; the per-day delta is clamped
at settlement. -/
theorem c3_reputation_clamped
    (s : Game.ManagerState) (cs : Code.ManagerState)
    (hs0 : 0 ≤ s.reputation) (hs1 : s.reputation ≤ 100)
    (hc0 : 0 ≤ cs.reputation) (hc1 : cs.reputation ≤ 100)
    (rnd crnd : Nat → Game.RouteRand) (fluct : ℚ)
    (boards : List Game.RunningBoard) (trnd : Nat → Game.TripRand) :
    (0 ≤ (Game.run_day_simulation_static s rnd fluct).reputation ∧
      (Game.run_day_simulation_static s rnd fluct).reputation ≤ 100) ∧
    (0 ≤ (Game.run_day_simulation_running_boards s boards trnd fluct).reputation ∧
      (Game.run_day_simulation_running_boards s boards trnd fluct).reputation ≤ 100) ∧
    (0 ≤ (Code.run_day_simulation cs crnd).reputation ∧
      (Code.run_day_simulation cs crnd).reputation ≤ 100) := by
  refine ⟨?_, ?_, ?_⟩
  · unfold Game.run_day_simulation_static
    split
    · exact ⟨hs0, hs1⟩
    · exact ⟨clamp_nonneg _, clamp_le_hundred _⟩
  · unfold Game.run_day_simulation_running_boards
    dsimp only
    split
    · exact ⟨hs0, hs1⟩
    · exact ⟨clamp_nonneg _, clamp_le_hundred _⟩
  · unfold Code.run_day_simulation
    split
    · exact ⟨hc0, hc1⟩
    · exact ⟨clamp_nonneg _, clamp_le_hundred _⟩

/-- C3 (witness): the bound at the concrete one-route company with a
fixed draw stream. -/
theorem c3_witness :
    0 ≤ (Game.run_day_simulation_static demoStateG (fun _ => ⟨7, 1, 1⟩)
        0).reputation ∧
    (Game.run_day_simulation_static demoStateG (fun _ => ⟨7, 1, 1⟩)
        0).reputation ≤ 100 :=
  (c3_reputation_clamped demoStateG (Code.ManagerState.new "Acme")
    (by norm_num [demoStateG]) (by norm_num [demoStateG])
    (by norm_num [Code.ManagerState.new]) (by norm_num [Code.ManagerState.new])
    (fun _ => ⟨7, 1, 1⟩) (fun _ => ⟨0, 1, 1⟩) 0 [] (fun _ => ⟨0, 1⟩)).1

/-! ## C5 — schedule change guarded at half the base -/

/-- C5: a schedule update to `new_time` is rejected exactly when
`new_time < base_schedule_minutes // 2` (the route is left unchanged on
rejection, which the `Option` models); an accepted update sets the
current schedule to `new_time`, which is then never below half the
base; the boundary value `base // 2` itself is accepted. -/
theorem c5_schedule_half_base_guard (r : Game.Route) (t : Int) :
    (Game.change_route_schedule r t = none ↔
      t < Int.fdiv r.base_schedule_minutes 2) ∧
    (∀ r', Game.change_route_schedule r t = some r' →
      r' = { r with current_schedule_minutes := t } ∧
      Int.fdiv r.base_schedule_minutes 2 ≤ r'.current_schedule_minutes) ∧
    (t = Int.fdiv r.base_schedule_minutes 2 →
      Game.change_route_schedule r t =
        some { r with current_schedule_minutes := t }) := by
  by_cases h : t < Int.fdiv r.base_schedule_minutes 2
  · refine ⟨⟨fun _ => h, fun _ => by simp [Game.change_route_schedule, h]⟩,
      ?_, ?_⟩
    · intro r' hr
      rw [Game.change_route_schedule, if_pos h] at hr
      exact absurd hr (by simp)
    · intro ht
      rw [ht] at h
      exact absurd h (lt_irrefl _)
  · refine ⟨⟨fun hn => ?_, fun hlt => absurd hlt h⟩, ?_, ?_⟩
    · rw [Game.change_route_schedule, if_neg h] at hn
      exact absurd hn (by simp)
    · intro r' hr
      rw [Game.change_route_schedule, if_neg h] at hr
      have := Option.some.inj hr
      subst this
      exact ⟨rfl, not_lt.mp h⟩
    · intro _
      rw [Game.change_route_schedule, if_neg h]

/-- C5 (witness): the boundary update `6 = 12 // 2` on the demo route is
accepted. -/
theorem c5_witness :
    Game.change_route_schedule demoRouteG 6 =
      some { demoRouteG with current_schedule_minutes := 6 } :=
  (c5_schedule_half_base_guard demoRouteG 6).2.2 (by decide)

/-! ## C4 / C9 — static assignment -/

/-- The happy path of `assign_bus_to_route`: when the bus resolves and
the route index is in range, the result clears the bus from every route,
installs it at the target index, and stamps the target's name on the
moved bus. -/
theorem assign_happy_path
    (s : Game.ManagerState) (bus_id : Int) (route_idx : Nat) (bus : Game.Bus)
    (hfind : s.fleet.find? (fun b => b.bus_id == bus_id) = some bus)
    (hidx : route_idx < s.routes.length) :
    ∃ target : Game.Route, s.routes[route_idx]? = some target ∧
      Game.assign_bus_to_route s bus_id route_idx =
        { s with
          routes := (s.routes.map (fun r =>
              if r.assigned_bus_id = some bus_id then
                { r with assigned_bus_id := none }
              else r)).set route_idx
            { target with assigned_bus_id := some bus_id }
          fleet := updateFirst (fun b => b.bus_id == bus_id)
            (fun b => { b with assigned_route := some target.name }) s.fleet } := by
  have htar : s.routes[route_idx]? = some s.routes[route_idx] :=
    List.getElem?_eq_getElem hidx
  refine ⟨s.routes[route_idx], htar, ?_⟩
  have hcl : (s.routes.map (fun r =>
      if r.assigned_bus_id = some bus_id then { r with assigned_bus_id := none }
      else r))[route_idx]? =
      some (if (s.routes[route_idx]).assigned_bus_id = some bus_id then
        { s.routes[route_idx] with assigned_bus_id := none }
      else s.routes[route_idx]) := by
    rw [List.getElem?_map, List.getElem?_eq_getElem hidx]
    rfl
  unfold Game.assign_bus_to_route
  rw [hfind]
  dsimp only
  rw [hcl]
  by_cases hc : (s.routes[route_idx]).assigned_bus_id = some bus_id <;>
    simp [hc]

/-- C4: after a successful `assign(bus, route)` the target route holds
the bus and no other route does — any route previously holding the bus
was cleared, and a previous occupant of the target was displaced
silently (the operation returns a state, not an error). -/
theorem c4_assignment_exclusive
    (s : Game.ManagerState) (bus_id : Int) (route_idx : Nat) (bus : Game.Bus)
    (hfind : s.fleet.find? (fun b => b.bus_id == bus_id) = some bus)
    (hidx : route_idx < s.routes.length) :
    (Game.assign_bus_to_route s bus_id route_idx).routes.length
        = s.routes.length ∧
    (∃ r', (Game.assign_bus_to_route s bus_id route_idx).routes[route_idx]?
        = some r' ∧ r'.assigned_bus_id = some bus_id) ∧
    (∀ (j : Nat) (r' : Game.Route), j ≠ route_idx →
      (Game.assign_bus_to_route s bus_id route_idx).routes[j]? = some r' →
      r'.assigned_bus_id ≠ some bus_id) := by
  obtain ⟨target, htar, heq⟩ := assign_happy_path s bus_id route_idx bus hfind hidx
  rw [heq]
  refine ⟨by simp, ⟨{ target with assigned_bus_id := some bus_id }, ?_, rfl⟩, ?_⟩
  · exact List.getElem?_set_self (by simpa using hidx)
  · intro j r' hj hget
    rw [List.getElem?_set_ne (Ne.symm hj), List.getElem?_map] at hget
    obtain ⟨orig, _, horig⟩ := Option.map_eq_some'.mp hget
    by_cases hc : orig.assigned_bus_id = some bus_id
    · rw [if_pos hc] at horig
      subst horig
      simp
    · rw [if_neg hc] at horig
      subst horig
      exact hc

/-- C4 (witness): moving bus 1 from route 1 to route 2 in the two-route
company leaves bus 1 on exactly the target route. -/
theorem c4_witness :
    (Game.assign_bus_to_route demoStateTwo 1 1).routes.length
        = demoStateTwo.routes.length ∧
    (∃ r', (Game.assign_bus_to_route demoStateTwo 1 1).routes[1]? = some r' ∧
      r'.assigned_bus_id = some 1) ∧
    (∀ (j : Nat) (r' : Game.Route), j ≠ 1 →
      (Game.assign_bus_to_route demoStateTwo 1 1).routes[j]? = some r' →
      r'.assigned_bus_id ≠ some 1) :=
  c4_assignment_exclusive demoStateTwo 1 1 demoBusG rfl (by decide)

/-- C9: when `assign(bus X, route R)` displaces the previous occupant
`Y` of the target route, `Y`'s fleet entry is left byte-for-byte
unchanged — in particular `Y.assigned_route` still names `R` — while `R`
now references `X`, so `Y`'s back-reference disagrees with the route
list. -/
theorem c9_displaced_bus_stale_backref
    (s : Game.ManagerState) (bus_id : Int) (route_idx : Nat) (bus : Game.Bus)
    (hfind : s.fleet.find? (fun b => b.bus_id == bus_id) = some bus)
    (hidx : route_idx < s.routes.length)
    (j : Nat) (y : Game.Bus)
    (hy : s.fleet[j]? = some y) (hyne : y.bus_id ≠ bus_id) :
    (Game.assign_bus_to_route s bus_id route_idx).fleet[j]? = some y ∧
    (∀ target : Game.Route, s.routes[route_idx]? = some target →
      target.assigned_bus_id = some y.bus_id →
      ∃ r', (Game.assign_bus_to_route s bus_id route_idx).routes[route_idx]?
          = some r' ∧
        r'.name = target.name ∧ r'.assigned_bus_id = some bus_id ∧
        r'.assigned_bus_id ≠ some y.bus_id) := by
  obtain ⟨target, htar, heq⟩ := assign_happy_path s bus_id route_idx bus hfind hidx
  rw [heq]
  constructor
  · exact updateFirst_getElem?_of_not _ _ s.fleet j y hy (by simpa using hyne)
  · intro target' htar' hocc
    rw [htar] at htar'
    obtain rfl : target = target' := Option.some.inj htar'
    refine ⟨{ target with assigned_bus_id := some bus_id },
      List.getElem?_set_self (by simpa using hidx), rfl, rfl, ?_⟩
    intro hcon
    exact hyne (Option.some.inj hcon).symm

/-- C9 (witness): bus 2, displaced from route 2 when bus 1 moves there,
is unchanged in the fleet and still carries no reference update. -/
theorem c9_witness :
    (Game.assign_bus_to_route demoStateTwo 1 1).fleet[1]? = some demoBusG2 ∧
    (∀ target : Game.Route, demoStateTwo.routes[1]? = some target →
      target.assigned_bus_id = some demoBusG2.bus_id →
      ∃ r', (Game.assign_bus_to_route demoStateTwo 1 1).routes[1]? = some r' ∧
        r'.name = target.name ∧ r'.assigned_bus_id = some 1 ∧
        r'.assigned_bus_id ≠ some demoBusG2.bus_id) :=
  c9_displaced_bus_stale_backref demoStateTwo 1 1 demoBusG rfl
    (by decide) 1 demoBusG2 rfl (by decide)

/-! ## C2 — demand draw, capacity cap and fare income -/

/-- C2: for a served route, with `W` the workload (sum of per-stop
travel costs excluding the first stop) and any demand oracle `r` inside
the source's draw range `[max 0 (⌊W·k⌋ − 5), ⌊W·k⌋ + 5]` (k = 3/2 for
the duration-based `game.py` engine, k = 10 for the distance-based
`code.py` engine), the route's fare income added to the day's total is
`min capacity r` passengers at the fixed £2.50 ticket. -/
theorem c2_demand_capacity_fare :
    (∀ (fp : ℚ) (acc : Game.DayAcc) (route : Game.Route)
        (rnd : Game.RouteRand) (bus : Game.Bus),
      acc.fleet.find? (fun b => some b.bus_id == route.assigned_bus_id)
          = some bus →
      0 ≤ route.total_time →
      max 0 (⌊(route.total_time : ℚ) * (3/2)⌋ - 5) ≤ rnd.demand →
      rnd.demand ≤ ⌊(route.total_time : ℚ) * (3/2)⌋ + 5 →
      (Game.simRouteStatic fp acc route rnd).totalEarnings =
        acc.totalEarnings + (min bus.capacity rnd.demand : ℚ) * (5/2)) ∧
    (∀ (acc : Code.DayAcc) (route : Code.Route) (rnd : Game.RouteRand)
        (bus : Code.Bus),
      acc.fleet.find? (fun b => some b.bus_id == route.assigned_bus_id)
          = some bus →
      0 ≤ route.total_distance →
      max 0 (⌊route.total_distance * 10⌋ - 5) ≤ rnd.demand →
      rnd.demand ≤ ⌊route.total_distance * 10⌋ + 5 →
      (Code.simRoute acc route rnd).totalEarnings =
        acc.totalEarnings + (min bus.capacity rnd.demand : ℚ) * (5/2)) := by
  constructor
  · intro fp acc route rnd bus hfind hW hlo hhi
    have hq : (0 : ℚ) ≤ (route.total_time : ℚ) * (3/2) :=
      mul_nonneg (by exact_mod_cast hW) (by norm_num)
    have hpy : pyInt ((route.total_time : ℚ) * (3/2)) =
        ⌊(route.total_time : ℚ) * (3/2)⌋ := by
      rw [pyInt, if_pos hq]
    have hcl : randint (max 0 (⌊(route.total_time : ℚ) * (3/2)⌋ - 5))
        (⌊(route.total_time : ℚ) * (3/2)⌋ + 5) rnd.demand = rnd.demand := by
      rw [randint, min_eq_right hhi, max_eq_right hlo]
    unfold Game.simRouteStatic
    rw [hfind]
    dsimp only
    rw [hpy, hcl]
    push_cast
    ring
  · intro acc route rnd bus hfind hW hlo hhi
    have hq : (0 : ℚ) ≤ route.total_distance * 10 :=
      mul_nonneg hW (by norm_num)
    have hpy : pyInt (route.total_distance * 10) =
        ⌊route.total_distance * 10⌋ := by
      rw [pyInt, if_pos hq]
    have hcl : randint (max 0 (⌊route.total_distance * 10⌋ - 5))
        (⌊route.total_distance * 10⌋ + 5) rnd.demand = rnd.demand := by
      rw [randint, min_eq_right hhi, max_eq_right hlo]
    unfold Code.simRoute
    rw [hfind]
    dsimp only
    rw [hpy, hcl]
    push_cast
    ring

/-- C2 (witness): the duration-based demo route (W = 10 minutes, demand
centre 15, draw 12) and the spec's distance-based scenario (W = 10 km,
capacity 50, demand centre 100, draw 98, capped at 50). -/
theorem c2_witness :
    (Game.simRouteStatic (8/5) demoAccG demoRouteG ⟨12, 1, 1⟩).totalEarnings =
      demoAccG.totalEarnings + (min demoBusG.capacity 12 : ℚ) * (5/2) ∧
    (Code.simRoute demoAccC demoRouteC ⟨98, 1, 1⟩).totalEarnings =
      demoAccC.totalEarnings + (min demoBusC.capacity 98 : ℚ) * (5/2) :=
  ⟨c2_demand_capacity_fare.1 (8/5) demoAccG demoRouteG ⟨12, 1, 1⟩ demoBusG rfl
      (by decide)
      (by norm_num [demoRouteG, Game.Route.total_time])
      (by norm_num [demoRouteG, Game.Route.total_time]),
   c2_demand_capacity_fare.2 demoAccC demoRouteC ⟨98, 1, 1⟩ demoBusC rfl
      (by norm_num [demoRouteC, Code.Route.total_distance])
      (by norm_num [demoRouteC, Code.Route.total_distance])
      (by norm_num [demoRouteC, Code.Route.total_distance])⟩

/-! ## C6 — cancelled and skipped trips leave the board running -/

/-- C6: in running-board mode, a trip whose bus lacks the estimated fuel
is cancelled with reputation −5 and nothing else changed (no fuel burnt,
no earnings, no fuel cost, no completed-trip count), and the rest of the
board still runs; a trip whose route name resolves to no route is
skipped with reputation −2, likewise without aborting the board. -/
theorem c6_trip_cancel_and_skip :
    (∀ (fp : ℚ) (routes : List Game.Route) (acc : Game.TripAcc)
        (trip : Game.Trip) (route : Game.Route) (rest : List Game.Trip),
      routes.find? (fun r => r.name == trip.route_name) = some route →
      acc.bus.fuel_level <
          (route.total_time : ℚ) / 60 * 30 * acc.bus.fuel_efficiency →
      Game.simTrip fp routes acc trip =
          { acc with repChange := acc.repChange - 5 } ∧
      (trip :: rest).foldl (Game.simTrip fp routes) acc =
          rest.foldl (Game.simTrip fp routes)
            { acc with repChange := acc.repChange - 5 }) ∧
    (∀ (fp : ℚ) (routes : List Game.Route) (acc : Game.TripAcc)
        (trip : Game.Trip) (rest : List Game.Trip),
      routes.find? (fun r => r.name == trip.route_name) = none →
      Game.simTrip fp routes acc trip =
          { acc with repChange := acc.repChange - 2 } ∧
      (trip :: rest).foldl (Game.simTrip fp routes) acc =
          rest.foldl (Game.simTrip fp routes)
            { acc with repChange := acc.repChange - 2 }) := by
  constructor
  · intro fp routes acc trip route rest hfind hlt
    have hstep : Game.simTrip fp routes acc trip =
        { acc with repChange := acc.repChange - 5 } := by
      unfold Game.simTrip
      rw [hfind]
      dsimp only
      rw [if_pos hlt]
    exact ⟨hstep, by rw [List.foldl_cons, hstep]⟩
  · intro fp routes acc trip rest hfind
    have hstep : Game.simTrip fp routes acc trip =
        { acc with repChange := acc.repChange - 2 } := by
      unfold Game.simTrip
      rw [hfind]
    exact ⟨hstep, by rw [List.foldl_cons, hstep]⟩

/-- C6 (witness): on the one-route network, the nearly dry bus (0.1 L
against a 1.3 L estimate) has its trip cancelled at −5, and the trip
over the missing route `Ghost` is skipped at −2. -/
theorem c6_witness :
    Game.simTrip (8/5) [demoRouteG] demoTripAccLow demoTripG =
        { demoTripAccLow with
          repChange := demoTripAccLow.repChange - 5 } ∧
    Game.simTrip (8/5) [demoRouteG] demoTripAccLow demoTripGhost =
        { demoTripAccLow with
          repChange := demoTripAccLow.repChange - 2 } :=
  ⟨(c6_trip_cancel_and_skip.1 (8/5) [demoRouteG] demoTripAccLow demoTripG
      demoRouteG [] rfl
      (by norm_num [demoTripAccLow, demoTripAccG, demoBusG, demoRouteG,
        Game.Route.total_time])).1,
   (c6_trip_cancel_and_skip.2 (8/5) [demoRouteG] demoTripAccLow demoTripGhost
      [] rfl).1⟩

/-! ## C10 — completed trips burn exactly 0.6 of the estimate -/

/-- C10: for a trip that passes the fuel pre-check, the litres actually
consumed are exactly 3/5 of the pre-check estimate
`W/60 · 30 · efficiency` (consumption applies the extra speed factor
30/50), so the bus ends the trip with at least 2/5 of the estimate left
and the `max (level − used) 0` floor of `consume_fuel` is not engaged. -/
theorem c10_fuel_consumption_fraction
    (fp : ℚ) (routes : List Game.Route) (acc : Game.TripAcc)
    (trip : Game.Trip) (route : Game.Route)
    (hfind : routes.find? (fun r => r.name == trip.route_name) = some route)
    (hfuel : ¬ acc.bus.fuel_level <
        (route.total_time : ℚ) / 60 * 30 * acc.bus.fuel_efficiency)
    (hW : 0 ≤ (route.total_time : ℚ))
    (heff : 0 ≤ acc.bus.fuel_efficiency) :
    (acc.bus.consume_fuel (route.total_time : ℚ) 30).1 =
        (3/5) * ((route.total_time : ℚ) / 60 * 30 * acc.bus.fuel_efficiency) ∧
    (Game.simTrip fp routes acc trip).bus.fuel_level =
        acc.bus.fuel_level -
          (3/5) * ((route.total_time : ℚ) / 60 * 30 * acc.bus.fuel_efficiency) ∧
    (2/5) * ((route.total_time : ℚ) / 60 * 30 * acc.bus.fuel_efficiency) ≤
        (Game.simTrip fp routes acc trip).bus.fuel_level := by
  have hestnn : 0 ≤ (route.total_time : ℚ) / 60 * 30 * acc.bus.fuel_efficiency :=
    mul_nonneg (mul_nonneg (div_nonneg hW (by norm_num)) (by norm_num)) heff
  have hlevel : (route.total_time : ℚ) / 60 * 30 * acc.bus.fuel_efficiency ≤
      acc.bus.fuel_level := not_lt.mp hfuel
  have hused : (acc.bus.consume_fuel (route.total_time : ℚ) 30).1 =
      (3/5) * ((route.total_time : ℚ) / 60 * 30 * acc.bus.fuel_efficiency) := by
    unfold Game.Bus.consume_fuel
    dsimp only
    ring
  have hterm : acc.bus.fuel_level -
      (route.total_time : ℚ) / 60 * 30 * acc.bus.fuel_efficiency * (30/50) =
      acc.bus.fuel_level -
        (3/5) * ((route.total_time : ℚ) / 60 * 30 * acc.bus.fuel_efficiency) := by
    ring
  have h0 : (0 : ℚ) ≤ acc.bus.fuel_level -
      (3/5) * ((route.total_time : ℚ) / 60 * 30 * acc.bus.fuel_efficiency) := by
    nlinarith [hestnn, hlevel]
  have key : (Game.simTrip fp routes acc trip).bus.fuel_level =
      acc.bus.fuel_level -
        (3/5) * ((route.total_time : ℚ) / 60 * 30 * acc.bus.fuel_efficiency) := by
    unfold Game.simTrip
    rw [hfind]
    dsimp only
    rw [if_neg hfuel]
    unfold Game.Bus.consume_fuel
    dsimp only
    rw [hterm, max_eq_left h0]
  exact ⟨hused, key, by rw [key]; linarith [hestnn, hlevel]⟩

/-- C10 (witness): the full-tank demo bus completes the demo trip
burning exactly 3/5 of the 1.3 L estimate. -/
theorem c10_witness :
    (demoTripAccG.bus.consume_fuel ((demoRouteG.total_time : ℚ)) 30).1 =
        (3/5) * ((demoRouteG.total_time : ℚ) / 60 * 30 *
          demoTripAccG.bus.fuel_efficiency) ∧
    (Game.simTrip (8/5) [demoRouteG] demoTripAccG demoTripG).bus.fuel_level =
        demoTripAccG.bus.fuel_level -
          (3/5) * ((demoRouteG.total_time : ℚ) / 60 * 30 *
            demoTripAccG.bus.fuel_efficiency) ∧
    (2/5) * ((demoRouteG.total_time : ℚ) / 60 * 30 *
          demoTripAccG.bus.fuel_efficiency) ≤
        (Game.simTrip (8/5) [demoRouteG] demoTripAccG demoTripG).bus.fuel_level :=
  c10_fuel_consumption_fraction (8/5) [demoRouteG] demoTripAccG demoTripG
    demoRouteG rfl
    (by norm_num [demoTripAccG, demoBusG, demoRouteG, Game.Route.total_time])
    (by norm_num [demoRouteG, Game.Route.total_time])
    (by norm_num [demoTripAccG, demoBusG])

/-! ## C7 — fuel-market band and pre-advance pricing -/

/-- Each static route step bills its fuel at the loop's fixed price:
the cost delta is the used delta times that price. -/
theorem simRouteStatic_cost_used (fp : ℚ) (acc : Game.DayAcc)
    (route : Game.Route) (rnd : Game.RouteRand) :
    (Game.simRouteStatic fp acc route rnd).totalFuelCost =
      acc.totalFuelCost +
        ((Game.simRouteStatic fp acc route rnd).totalFuelUsed -
          acc.totalFuelUsed) * fp := by
  unfold Game.simRouteStatic
  cases hfind : acc.fleet.find? (fun b => some b.bus_id == route.assigned_bus_id) with
  | none => dsimp only; ring
  | some bus => dsimp only; ring

/-- The static day loop bills all fuel at the loop's fixed price. -/
theorem simRoutesStatic_cost_used (fp : ℚ) (routes : List Game.Route) :
    ∀ (acc : Game.DayAcc) (rnd : Nat → Game.RouteRand),
      (Game.simRoutesStatic fp acc routes rnd).totalFuelCost =
        acc.totalFuelCost +
          ((Game.simRoutesStatic fp acc routes rnd).totalFuelUsed -
            acc.totalFuelUsed) * fp := by
  induction routes with
  | nil => intro acc rnd; unfold Game.simRoutesStatic; ring
  | cons r rest ih =>
    intro acc rnd
    unfold Game.simRoutesStatic
    rw [ih, simRouteStatic_cost_used]
    ring

/-- Each running-board trip bills its fuel at the loop's fixed price. -/
theorem simTrip_cost_used (fp : ℚ) (routes : List Game.Route)
    (acc : Game.TripAcc) (trip : Game.Trip) :
    (Game.simTrip fp routes acc trip).boardFuel =
      acc.boardFuel +
        ((Game.simTrip fp routes acc trip).boardFuelUsed -
          acc.boardFuelUsed) * fp := by
  unfold Game.simTrip
  cases hfind : routes.find? (fun r => r.name == trip.route_name) with
  | none => dsimp only; ring
  | some route =>
    dsimp only
    split
    · dsimp only; ring
    · dsimp only; ring

/-- A whole board's trips bill their fuel at the loop's fixed price. -/
theorem foldl_simTrip_cost_used (fp : ℚ) (routes : List Game.Route)
    (trips : List Game.Trip) :
    ∀ acc : Game.TripAcc,
      (trips.foldl (Game.simTrip fp routes) acc).boardFuel =
        acc.boardFuel +
          ((trips.foldl (Game.simTrip fp routes) acc).boardFuelUsed -
            acc.boardFuelUsed) * fp := by
  induction trips with
  | nil => intro acc; simp only [List.foldl_nil]; ring
  | cons t rest ih =>
    intro acc
    simp only [List.foldl_cons]
    rw [ih, simTrip_cost_used]
    ring

/-- Each board bills its fuel at the loop's fixed price. -/
theorem simBoard_cost_used (fp : ℚ) (routes : List Game.Route)
    (acc : Game.DynAcc) (board : Game.RunningBoard) :
    (Game.simBoard fp routes acc board).totalFuelCost =
      acc.totalFuelCost +
        ((Game.simBoard fp routes acc board).totalFuelUsed -
          acc.totalFuelUsed) * fp := by
  unfold Game.simBoard
  cases hfind : acc.fleet.find? (fun b => some b.bus_id == board.assigned_bus_id) with
  | none => dsimp only; ring
  | some bus =>
    dsimp only
    rw [foldl_simTrip_cost_used]
    dsimp only
    ring

/-- The whole board loop bills its fuel at the loop's fixed price. -/
theorem foldl_simBoard_cost_used (fp : ℚ) (routes : List Game.Route)
    (boards : List Game.RunningBoard) :
    ∀ acc : Game.DynAcc,
      (boards.foldl (Game.simBoard fp routes) acc).totalFuelCost =
        acc.totalFuelCost +
          ((boards.foldl (Game.simBoard fp routes) acc).totalFuelUsed -
            acc.totalFuelUsed) * fp := by
  induction boards with
  | nil => intro acc; simp only [List.foldl_nil]; ring
  | cons b rest ih =>
    intro acc
    simp only [List.foldl_cons]
    rw [ih, simBoard_cost_used]
    ring

/-- C7: `advance()` adds the day's perturbation and clamps into
[1.25, 2.00], so after any positive number of calls the price is in the
band from any start; and a simulated day prices every trip's fuel at the
pre-advance price — the day's total fuel cost is the total fuel used
times the price the day started with, while the state's price is only
then advanced to `clamp(pre + fluct)`. -/
theorem c7_fuel_price_band_and_preadvance :
    (∀ (s : Game.ManagerState) (fl : Nat → ℚ) (n : Nat), 0 < n →
      5/4 ≤ (Game.advanceCalls s fl n).fuel_price ∧
        (Game.advanceCalls s fl n).fuel_price ≤ 2) ∧
    (∀ (s : Game.ManagerState) (fluct : ℚ),
      (Game.update_fuel_price s fluct).fuel_price =
        max (5/4) (min 2 (s.fuel_price + fluct))) ∧
    (∀ (s : Game.ManagerState) (rnd : Nat → Game.RouteRand) (fluct : ℚ),
      s.routes.isEmpty = false → s.fleet.isEmpty = false →
      (Game.run_day_simulation_static s rnd fluct).fuel_price =
          max (5/4) (min 2 (s.fuel_price + fluct)) ∧
      (Game.simRoutesStatic s.fuel_price
          { fleet := s.fleet, money := s.money, totalEarnings := 0,
            totalFuelCost := 0, totalFuelUsed := 0, repChange := 0 }
          s.routes rnd).totalFuelCost =
        (Game.simRoutesStatic s.fuel_price
          { fleet := s.fleet, money := s.money, totalEarnings := 0,
            totalFuelCost := 0, totalFuelUsed := 0, repChange := 0 }
          s.routes rnd).totalFuelUsed * s.fuel_price) ∧
    (∀ (s : Game.ManagerState) (allBoards : List Game.RunningBoard)
        (trnd : Nat → Game.TripRand) (fluct : ℚ),
      (allBoards.filter Game.RunningBoard.hasBus).isEmpty = false →
      (Game.run_day_simulation_running_boards s allBoards trnd fluct).fuel_price =
          max (5/4) (min 2 (s.fuel_price + fluct)) ∧
      ((allBoards.filter Game.RunningBoard.hasBus).foldl
          (Game.simBoard s.fuel_price s.routes)
          { fleet := s.fleet, totalEarnings := 0, totalFuelCost := 0,
            totalFuelUsed := 0, repChange := 0, rnd := trnd }).totalFuelCost =
        ((allBoards.filter Game.RunningBoard.hasBus).foldl
          (Game.simBoard s.fuel_price s.routes)
          { fleet := s.fleet, totalEarnings := 0, totalFuelCost := 0,
            totalFuelUsed := 0, repChange := 0, rnd := trnd }).totalFuelUsed *
          s.fuel_price) := by
  refine ⟨?_, fun s fluct => rfl, ?_, ?_⟩
  · intro s fl n hn
    cases n with
    | zero => exact absurd hn (by omega)
    | succ m =>
      exact ⟨le_max_left _ _, max_le (by norm_num) (min_le_left _ _)⟩
  · intro s rnd fluct hr hf
    constructor
    · simp [Game.run_day_simulation_static, hr, hf, Game.update_fuel_price]
    · have h := simRoutesStatic_cost_used s.fuel_price s.routes
        { fleet := s.fleet, money := s.money, totalEarnings := 0,
          totalFuelCost := 0, totalFuelUsed := 0, repChange := 0 } rnd
      simpa using h
  · intro s allBoards trnd fluct hg
    constructor
    · simp [Game.run_day_simulation_running_boards, hg, Game.update_fuel_price]
    · have h := foldl_simBoard_cost_used s.fuel_price s.routes
        (allBoards.filter Game.RunningBoard.hasBus)
        { fleet := s.fleet, totalEarnings := 0, totalFuelCost := 0,
          totalFuelUsed := 0, repChange := 0, rnd := trnd }
      simpa using h

/-- C7 (witness): one advance from the fresh company's £1.60 with zero
perturbation stays in the band. -/
theorem c7_witness :
    5/4 ≤ (Game.advanceCalls (Game.ManagerState.new "Acme")
        (fun _ => 0) 1).fuel_price ∧
      (Game.advanceCalls (Game.ManagerState.new "Acme")
        (fun _ => 0) 1).fuel_price ≤ 2 :=
  c7_fuel_price_band_and_preadvance.1 (Game.ManagerState.new "Acme")
    (fun _ => 0) 1 (by decide)

/-! ## C8 — the company snapshot round-trips losslessly -/

/-- Decoding a list encoded element-wise recovers the list, given the
element-level round-trip. -/
theorem decodeList_map_roundtrip {α : Type} (f : JValue → Option α)
    (g : α → JValue) (h : ∀ a, f (g a) = some a) :
    ∀ l : List α, decodeList f (l.map g) = some l := by
  intro l
  induction l with
  | nil => rfl
  | cons x xs ih =>
    simp only [List.map_cons]
    unfold decodeList
    rw [h x, ih]

/-- A stop round-trips through its dict. -/
theorem stop_to_from (s : Game.Stop) :
    Game.Stop.from_dict s.to_dict = some s := rfl

/-- A bus round-trips through its dict. -/
theorem bus_to_from (b : Game.Bus) :
    Game.Bus.from_dict b.to_dict = some b := by
  obtain ⟨i, m, cap, fc, fl, fe, ar, h, pp, fn, dlc, liv⟩ := b
  cases ar <;> cases fn <;> cases dlc <;> rfl

/-- A route (with its nested stops) round-trips through its dict. -/
theorem route_to_from (r : Game.Route) :
    Game.Route.from_dict r.to_dict = some r := by
  obtain ⟨n, stops, b, c, a⟩ := r
  have h := decodeList_map_roundtrip Game.Stop.from_dict Game.Stop.to_dict
    stop_to_from stops
  cases a <;>
    simp [Game.Route.to_dict, Game.Route.from_dict, jlookup, jget, joptInt,
      optIntJ, h]

/-- C8: serialising a company state to its snapshot record and
deserialising it back yields a state equal in every field — company
name, money, reputation, day, next-bus-id, the fleet with all bus
fields, the routes with nested stops, the assignment-mode flag and the
fuel price. -/
theorem c8_snapshot_roundtrip (s : Game.ManagerState) :
    Game.ManagerState.from_dict s.to_dict = some s := by
  obtain ⟨cn, routes, fleet, mo, rep, d, nb, urb, fp⟩ := s
  have hr := decodeList_map_roundtrip Game.Route.from_dict Game.Route.to_dict
    route_to_from routes
  have hf := decodeList_map_roundtrip Game.Bus.from_dict Game.Bus.to_dict
    bus_to_from fleet
  simp [Game.ManagerState.to_dict, Game.ManagerState.from_dict, jlookup, jget,
    jnumOf, hr, hf]
